import Mathlib

/-!
Shallow embedding of the tool-scoped client cache and query executor of
`app/services/portia_service.py`, together with the error type of
`app/exceptions.py` and the result shape of `app/schemas/run.py`, and
proofs of the specification's claims about them.

The external agent runtime is opaque: catalog snapshots, runtime outcomes
and timestamps are parameters of the embedded operations, exactly where the
source consults the outside world.
-/

namespace PortiaFastapi

deriving instance DecidableEq for Except

/-- Opaque handle to a tool object produced by the runtime registry, modelled
as a natural number identifying the object (a fresh fetch may map the same
identifier to a different object). -/
abbrev ToolHandle := Nat

/-- Catalog snapshot: the mapping returned by `_get_available_tools_map`, an
association list from tool identifier to tool handle. -/
abbrev Catalog := List (String × ToolHandle)

/-- Key set of a catalog snapshot, `set(available_tools_map.keys())`. -/
def catalogKeys (c : Catalog) : Finset String :=
  (c.map Prod.fst).toFinset

/-- Restriction of a catalog snapshot to a set of identifiers: the entries a
new client is built over, `[available_tools_map[tool] for tool in tools]`
(Python set iteration order is unspecified, so catalog order is kept). -/
def catalogRestrict (c : Catalog) (tools : Finset String) : List (String × ToolHandle) :=
  c.filter (fun p => decide (p.1 ∈ tools))

/-- Embedding of the `Portia(...)` client object: the set it was built for,
the tool entries it holds, the key set of the catalog snapshot fetched
during the call that constructed it, and a construction counter standing in
for Python object identity. -/
structure PortiaHandle where
  tools : Finset String
  scopedTools : List (String × ToolHandle)
  snapshotKeys : Finset String
  uid : Nat
deriving DecidableEq

/-- Embedding of `InvalidToolsError`. The constructor receives
`list(tools)` and `list(available_tools_map.keys())`; those lists are built
from sets in unspecified order, so the fields are modelled as the sets. -/
structure InvalidToolsError where
  invalid_tools : Finset String
  available_tools : Finset String
deriving DecidableEq

/-- Mutable state of the `PortiaService` singleton: `self._tools` and
`self._portia_instance`, plus a counter supplying fresh handle identities. -/
structure ServiceState where
  tools : Finset String
  portia_instance : Option PortiaHandle
  nextUid : Nat
deriving DecidableEq

/-- State established by `PortiaService.__init__`: empty bound set, no cached
client. -/
def initState : ServiceState :=
  { tools := ∅, portia_instance := none, nextUid := 0 }

/-- Client object built by the `Portia(config=..., tools=..., ...)` call on
the cache-miss path, with a fresh identity drawn from the state's counter. -/
def mkHandle (catalog : Catalog) (s : ServiceState) (tools : Finset String) : PortiaHandle :=
  { tools := tools
    scopedTools := catalogRestrict catalog tools
    snapshotKeys := catalogKeys catalog
    uid := s.nextUid }

/-- Cache-miss path of `_get_portia_instance` (fetch a snapshot, validate the
requested set, construct and cache a new client, or raise
`InvalidToolsError(list(tools), list(available_tools_map.keys()))`; note the
first argument of the raise is the whole requested set). -/
def buildPortia (catalog : Catalog) (s : ServiceState) (tools : Finset String) :
    Except InvalidToolsError PortiaHandle × ServiceState :=
  if tools ⊆ catalogKeys catalog then
    (.ok (mkHandle catalog s tools),
     { tools := tools
       portia_instance := some (mkHandle catalog s tools)
       nextUid := s.nextUid + 1 })
  else
    (.error { invalid_tools := tools, available_tools := catalogKeys catalog }, s)

/-- Embedding of `PortiaService._get_portia_instance`. The catalog snapshot
that `_get_available_tools_map` would return during this call is a parameter;
it is consulted only on a cache miss, exactly as in the source. -/
def getPortiaInstance (catalog : Catalog) (s : ServiceState) (tools : Finset String) :
    Except InvalidToolsError PortiaHandle × ServiceState :=
  if h : tools = s.tools ∧ s.portia_instance.isSome = true then
    (.ok (s.portia_instance.get h.2), s)
  else
    buildPortia catalog s tools

/-- Outcome of awaiting `portia_instance.run(query, tools)` followed by the
result extraction inside the try block: either a final output value or a
fault whose stringified form is `msg`. -/
inductive RuntimeOutcome (α : Type) where
  | success (finalOutput : α)
  | fault (msg : String)
deriving DecidableEq

/-- Embedding of the dict returned by `run_query`, matching the `RunResponse`
schema: a key absent from the dict is `none`. -/
structure RunResult (α : Type) where
  success : Bool
  result : Option α
  error : Option String
  execution_time : Option ℚ
deriving DecidableEq

/-- Python `round(x, 2)` modelled over the rationals (binary float
representation and tie-breaking aside; the claims only concern whether
rounding is applied at all). -/
def round2 (x : ℚ) : ℚ :=
  (round (x * 100) : ℚ) / 100

/-- Embedding of `PortiaService.run_query`. The external runtime is a
parameter mapping the query and the tools list to an outcome; `t0` is the
`time.time()` reading taken before execution and `t1` the reading taken in
whichever branch terminates it. -/
def run_query {α : Type} (catalog : Catalog) (s : ServiceState) (query : String)
    (tools : List String) (runtime : String → List String → RuntimeOutcome α)
    (t0 t1 : ℚ) :
    Except InvalidToolsError (RunResult α × ServiceState) :=
  match getPortiaInstance catalog s tools.toFinset with
  | (.error e, _) => .error e
  | (.ok _, s1) =>
    match runtime query tools with
    | .success out =>
        .ok ({ success := true, result := some out, error := none,
               execution_time := some (round2 (t1 - t0)) }, s1)
    | .fault msg =>
        .ok ({ success := false, result := none, error := some msg,
               execution_time := some (t1 - t0) }, s1)

example :
    (getPortiaInstance [("a", 0)] initState {"a"}).1 =
      .ok { tools := {"a"}, scopedTools := [("a", 0)], snapshotKeys := {"a"}, uid := 0 } := by
  decide

example :
    (getPortiaInstance [("a", 0)] initState {"a", "b"}).1 =
      .error { invalid_tools := {"a", "b"}, available_tools := {"a"} } := by
  decide

example :
    run_query [("a", 0)] initState "q" ["a"]
      (fun _ _ => RuntimeOutcome.fault "boom") 0 1 =
    .ok ({ success := false, result := (none : Option Nat), error := some "boom",
           execution_time := some 1 },
         { tools := {"a"},
           portia_instance := some
             { tools := {"a"}, scopedTools := [("a", 0)], snapshotKeys := {"a"}, uid := 0 },
           nextUid := 1 }) := by
  norm_num [run_query, getPortiaInstance, buildPortia, mkHandle, round2, initState,
    catalogKeys, catalogRestrict]

/-- Cache-hit behaviour: when a client is cached, requesting exactly the
bound set returns it and leaves the state untouched, whatever the catalog
parameter is. -/
lemma getPortiaInstance_hit (catalog : Catalog) (s : ServiceState) (inst : PortiaHandle)
    (hi : s.portia_instance = some inst) :
    getPortiaInstance catalog s s.tools = (.ok inst, s) := by
  simp [getPortiaInstance, hi]

/-- Cache-miss behaviour: when the hit condition fails, resolution is the
build path. -/
lemma getPortiaInstance_miss (catalog : Catalog) (s : ServiceState) (tools : Finset String)
    (h : ¬ (tools = s.tools ∧ s.portia_instance.isSome = true)) :
    getPortiaInstance catalog s tools = buildPortia catalog s tools :=
  dif_neg h

/-- Postcondition of a successful resolution: the resulting state binds the
requested set and caches the returned handle. -/
lemma getPortiaInstance_ok_state (catalog : Catalog) (s : ServiceState) (S : Finset String)
    (inst : PortiaHandle) (s1 : ServiceState)
    (h : getPortiaInstance catalog s S = (.ok inst, s1)) :
    s1.tools = S ∧ s1.portia_instance = some inst := by
  unfold getPortiaInstance at h
  split at h
  case isTrue hc =>
    rw [Prod.mk.injEq, Except.ok.injEq] at h
    obtain ⟨hinst, hs⟩ := h
    subst hs
    refine ⟨hc.1.symm, ?_⟩
    rw [← hinst]
    exact (Option.some_get hc.2).symm
  case isFalse hc =>
    unfold buildPortia at h
    split at h
    · rw [Prod.mk.injEq, Except.ok.injEq] at h
      obtain ⟨hinst, hs⟩ := h
      subst hs
      exact ⟨rfl, by rw [hinst]⟩
    · rw [Prod.mk.injEq] at h
      exact absurd h.1 (by simp)

/-- Resolution failure makes `run_query` propagate exactly that error. -/
lemma run_query_resolution_error {α : Type} (catalog : Catalog) (s : ServiceState)
    (query : String) (tools : List String)
    (runtime : String → List String → RuntimeOutcome α) (t0 t1 : ℚ)
    (e : InvalidToolsError)
    (h : (getPortiaInstance catalog s tools.toFinset).1 = .error e) :
    run_query catalog s query tools runtime t0 t1 = .error e := by
  unfold run_query
  rcases hg : getPortiaInstance catalog s tools.toFinset with ⟨r, s2⟩
  rw [hg] at h
  simp only at h
  rw [h]

/-- Resolution success makes `run_query` normalize whatever the runtime does
into a returned result paired with the resolved state. -/
lemma run_query_resolution_ok {α : Type} (catalog : Catalog) (s : ServiceState)
    (query : String) (tools : List String)
    (runtime : String → List String → RuntimeOutcome α) (t0 t1 : ℚ)
    (inst : PortiaHandle) (s1 : ServiceState)
    (h : getPortiaInstance catalog s tools.toFinset = (.ok inst, s1)) :
    run_query catalog s query tools runtime t0 t1 =
      match runtime query tools with
      | .success out =>
          .ok ({ success := true, result := some out, error := none,
                 execution_time := some (round2 (t1 - t0)) }, s1)
      | .fault msg =>
          .ok ({ success := false, result := none, error := some msg,
                 execution_time := some (t1 - t0) }, s1) := by
  unfold run_query
  rw [h]

/-- Characterization of the only exception `run_query` lets escape: it is an
error exactly when the resolution step is, with the same error value. -/
lemma run_query_error_iff {α : Type} (catalog : Catalog) (s : ServiceState)
    (query : String) (tools : List String)
    (runtime : String → List String → RuntimeOutcome α) (t0 t1 : ℚ)
    (e : InvalidToolsError) :
    run_query catalog s query tools runtime t0 t1 = .error e ↔
      (getPortiaInstance catalog s tools.toFinset).1 = .error e := by
  constructor
  · intro he
    rcases hg : getPortiaInstance catalog s tools.toFinset with ⟨r, s2⟩
    cases r with
    | error e2 =>
        rw [run_query_resolution_error catalog s query tools runtime t0 t1 e2
          (by rw [hg])] at he
        simpa using he
    | ok inst =>
        rw [run_query_resolution_ok catalog s query tools runtime t0 t1 inst s2 hg] at he
        cases ho : runtime query tools <;> rw [ho] at he <;> simp at he
  · exact run_query_resolution_error catalog s query tools runtime t0 t1 e

/-- C1: with catalog key set {a} and requested set {a, b}, resolution fails
with an `InvalidToolsError` whose `invalid_tools` field is the whole requested
set {a, b} — the source passes `list(tools)` to the constructor — and not the
set difference {a, b} minus catalogKeys = {b} that the claim (and the
exception class's own field documentation) prescribes. -/
theorem invalid_field_lists_whole_request :
    (getPortiaInstance [("a", 0)] initState {"a", "b"}).1 =
      .error { invalid_tools := {"a", "b"}, available_tools := {"a"} } ∧
    ({"a", "b"} : Finset String) ≠
      ({"a", "b"} : Finset String) \ catalogKeys [("a", 0)] := by
  refine ⟨by decide, by decide⟩

/-- C3 counterexample: build a client for {a} while the catalog maps a to
handle 0, then let the catalog map a to handle 1. The set {a} is a subset of
the current catalog's keys and resolution succeeds, yet the returned handle is
the cached one, scoped to the old entry ("a", 0) and not to the current
catalog's restriction [("a", 1)]. -/
theorem resolve_cache_hit_stale_scope :
    ({"a"} : Finset String) ⊆ catalogKeys [("a", 1)] ∧
    (getPortiaInstance [("a", 1)] (getPortiaInstance [("a", 0)] initState {"a"}).2 {"a"}).1 =
      .ok { tools := {"a"}, scopedTools := [("a", 0)], snapshotKeys := {"a"}, uid := 0 } ∧
    catalogRestrict [("a", 1)] {"a"} ≠ [("a", 0)] := by
  refine ⟨by decide, by decide, by decide⟩

/-- C3 (amended): for every requested set S that is a subset of the current
catalog's key set, resolve(S) succeeds and the cache's bound set afterwards
equals S; when the call is not a cache hit, the returned handle is moreover
built for S and scoped to exactly the current catalog's handles for S (a cache
hit returns the handle scoped at its own construction time instead). -/
theorem resolve_subset_succeeds (catalog : Catalog) (s : ServiceState) (S : Finset String)
    (hsub : S ⊆ catalogKeys catalog) :
    ∃ inst s1, getPortiaInstance catalog s S = (.ok inst, s1) ∧ s1.tools = S ∧
      (¬ (S = s.tools ∧ s.portia_instance.isSome = true) →
        inst.tools = S ∧ inst.scopedTools = catalogRestrict catalog S) := by
  by_cases hc : S = s.tools ∧ s.portia_instance.isSome = true
  · obtain ⟨inst, hi⟩ := Option.isSome_iff_exists.mp hc.2
    refine ⟨inst, s, ?_, hc.1.symm, fun hn => absurd hc hn⟩
    rw [hc.1]
    exact getPortiaInstance_hit catalog s inst hi
  · rw [getPortiaInstance_miss catalog s S hc]
    unfold buildPortia
    rw [if_pos hsub]
    exact ⟨mkHandle catalog s S, _, rfl, rfl, fun _ => ⟨rfl, rfl⟩⟩

/-- Witness for C3 at catalog [("a", 0)], the initial state and S = {a}. -/
theorem resolve_subset_succeeds_witness :
    ∃ inst s1, getPortiaInstance [("a", 0)] initState {"a"} = (.ok inst, s1) ∧
      s1.tools = {"a"} ∧
      (¬ (({"a"} : Finset String) = initState.tools ∧
            initState.portia_instance.isSome = true) →
        inst.tools = {"a"} ∧ inst.scopedTools = catalogRestrict [("a", 0)] {"a"}) :=
  resolve_subset_succeeds [("a", 0)] initState {"a"} (by decide)

/-- C5: once resolve(S) has succeeded, calling it again for S — with any
catalog snapshot, since a hit consults none — returns the identical handle and
the identical state, so no second client is constructed (in particular the
fresh-identity counter does not advance). -/
theorem resolve_idempotent (c1 c2 : Catalog) (s : ServiceState) (S : Finset String)
    (inst : PortiaHandle) (s1 : ServiceState)
    (h : getPortiaInstance c1 s S = (.ok inst, s1)) :
    getPortiaInstance c2 s1 S = (.ok inst, s1) := by
  obtain ⟨ht, hi⟩ := getPortiaInstance_ok_state c1 s S inst s1 h
  rw [← ht]
  exact getPortiaInstance_hit c2 s1 inst hi

/-- Witness for C5: resolving {a} twice from the initial state returns the
same handle and state both times. -/
theorem resolve_idempotent_witness :
    getPortiaInstance [("a", 0)]
      { tools := {"a"},
        portia_instance := some
          { tools := {"a"}, scopedTools := [("a", 0)], snapshotKeys := {"a"}, uid := 0 },
        nextUid := 1 }
      {"a"} =
    (.ok { tools := {"a"}, scopedTools := [("a", 0)], snapshotKeys := {"a"}, uid := 0 },
     { tools := {"a"},
       portia_instance := some
         { tools := {"a"}, scopedTools := [("a", 0)], snapshotKeys := {"a"}, uid := 0 },
       nextUid := 1 }) :=
  resolve_idempotent [("a", 0)] [("a", 0)] initState {"a"}
    { tools := {"a"}, scopedTools := [("a", 0)], snapshotKeys := {"a"}, uid := 0 }
    { tools := {"a"},
      portia_instance := some
        { tools := {"a"}, scopedTools := [("a", 0)], snapshotKeys := {"a"}, uid := 0 },
      nextUid := 1 }
    (by decide)

/-- C9: whenever a client handle is cached and the requested set equals the
bound set, resolution returns the cached handle with the state unchanged, for
every catalog parameter — in particular for catalogs whose key set no longer
contains the bound set, so no fetch or re-validation happens on a hit. -/
theorem cache_hit_skips_validation (catalog : Catalog) (s : ServiceState)
    (inst : PortiaHandle) (hi : s.portia_instance = some inst) :
    getPortiaInstance catalog s s.tools = (.ok inst, s) :=
  getPortiaInstance_hit catalog s inst hi

/-- Witness for C9: a binding for {a} stays resolvable against the empty
catalog, of which {a} is not a subset. -/
theorem cache_hit_skips_validation_witness :
    getPortiaInstance []
      { tools := {"a"},
        portia_instance := some
          { tools := {"a"}, scopedTools := [("a", 0)], snapshotKeys := {"a"}, uid := 0 },
        nextUid := 1 }
      {"a"} =
    (.ok { tools := {"a"}, scopedTools := [("a", 0)], snapshotKeys := {"a"}, uid := 0 },
     { tools := {"a"},
       portia_instance := some
         { tools := {"a"}, scopedTools := [("a", 0)], snapshotKeys := {"a"}, uid := 0 },
       nextUid := 1 }) ∧
    ¬ ({"a"} : Finset String) ⊆ catalogKeys [] :=
  ⟨cache_hit_skips_validation []
    { tools := {"a"},
      portia_instance := some
        { tools := {"a"}, scopedTools := [("a", 0)], snapshotKeys := {"a"}, uid := 0 },
      nextUid := 1 }
    { tools := {"a"}, scopedTools := [("a", 0)], snapshotKeys := {"a"}, uid := 0 }
    (by decide),
   by decide⟩

/-- C2: once resolution has succeeded, `run_query` never raises: every
behaviour of the external runtime is absorbed into a returned result paired
with the resolved state, a runtime fault in particular coming back as the
value {success: false, error: stringified fault, execution_time: elapsed};
the only failure `run_query` propagates as an exception is the
`InvalidToolsError` produced by the cache-resolution step that precedes
execution. -/
theorem run_query_raises_only_invalid_tools {α : Type} (catalog : Catalog)
    (s : ServiceState) (query : String) (tools : List String)
    (runtime : String → List String → RuntimeOutcome α) (t0 t1 : ℚ) :
    (∀ e, run_query catalog s query tools runtime t0 t1 = .error e →
        (getPortiaInstance catalog s tools.toFinset).1 = .error e) ∧
    (∀ inst s1, getPortiaInstance catalog s tools.toFinset = (.ok inst, s1) →
        ∃ r, run_query catalog s query tools runtime t0 t1 = .ok (r, s1)) ∧
    (∀ inst s1, getPortiaInstance catalog s tools.toFinset = (.ok inst, s1) →
        ∀ msg, runtime query tools = .fault msg →
          run_query catalog s query tools runtime t0 t1 =
            .ok ({ success := false, result := none, error := some msg,
                   execution_time := some (t1 - t0) }, s1)) := by
  refine ⟨?_, ?_, ?_⟩
  · intro e he
    exact (run_query_error_iff catalog s query tools runtime t0 t1 e).mp he
  · intro inst s1 hg
    rw [run_query_resolution_ok catalog s query tools runtime t0 t1 inst s1 hg]
    cases ho : runtime query tools <;> exact ⟨_, rfl⟩
  · intro inst s1 hg msg hf
    rw [run_query_resolution_ok catalog s query tools runtime t0 t1 inst s1 hg, hf]

/-- Witness for C2: at catalog [("a", 0)], valid tools ["a"] and a runtime
faulting with "boom", `run_query` returns a result rather than raising, and
that result is exactly the failure value carrying the stringified fault and
the elapsed time. -/
theorem run_query_raises_only_invalid_tools_witness :
    (∃ r, run_query [("a", 0)] initState "q" ["a"]
        (fun _ _ => RuntimeOutcome.fault (α := Nat) "boom") 0 1 =
      .ok (r,
        { tools := {"a"},
          portia_instance := some
            { tools := {"a"}, scopedTools := [("a", 0)], snapshotKeys := {"a"}, uid := 0 },
          nextUid := 1 })) ∧
    run_query [("a", 0)] initState "q" ["a"]
        (fun _ _ => RuntimeOutcome.fault (α := Nat) "boom") 0 1 =
      .ok ({ success := false, result := none, error := some "boom",
             execution_time := some ((1 : ℚ) - 0) },
        { tools := {"a"},
          portia_instance := some
            { tools := {"a"}, scopedTools := [("a", 0)], snapshotKeys := {"a"}, uid := 0 },
          nextUid := 1 }) :=
  ⟨(run_query_raises_only_invalid_tools [("a", 0)] initState "q" ["a"]
      (fun _ _ => RuntimeOutcome.fault "boom") 0 1).2.1
    { tools := {"a"}, scopedTools := [("a", 0)], snapshotKeys := {"a"}, uid := 0 }
    { tools := {"a"},
      portia_instance := some
        { tools := {"a"}, scopedTools := [("a", 0)], snapshotKeys := {"a"}, uid := 0 },
      nextUid := 1 }
    (by decide),
   (run_query_raises_only_invalid_tools [("a", 0)] initState "q" ["a"]
      (fun _ _ => RuntimeOutcome.fault "boom") 0 1).2.2
    { tools := {"a"}, scopedTools := [("a", 0)], snapshotKeys := {"a"}, uid := 0 }
    { tools := {"a"},
      portia_instance := some
        { tools := {"a"}, scopedTools := [("a", 0)], snapshotKeys := {"a"}, uid := 0 },
      nextUid := 1 }
    (by decide) "boom" rfl⟩

/-- C4: every result `run_query` returns has exactly one of `result` and
`error` populated — `result` exactly when `success` is true, `error` exactly
when `success` is false — and `execution_time` is populated on both paths. -/
theorem run_result_exactly_one (α : Type) (catalog : Catalog) (s : ServiceState)
    (query : String) (tools : List String)
    (runtime : String → List String → RuntimeOutcome α) (t0 t1 : ℚ)
    (r : RunResult α) (s1 : ServiceState)
    (h : run_query catalog s query tools runtime t0 t1 = .ok (r, s1)) :
    (r.success = true ↔ r.result.isSome = true ∧ r.error = none) ∧
    (r.success = false ↔ r.error.isSome = true ∧ r.result = none) ∧
    r.execution_time.isSome = true := by
  rcases hg : getPortiaInstance catalog s tools.toFinset with ⟨res, s2⟩
  cases res with
  | error e =>
      rw [run_query_resolution_error catalog s query tools runtime t0 t1 e
        (by rw [hg])] at h
      exact absurd h (by simp)
  | ok inst =>
      rw [run_query_resolution_ok catalog s query tools runtime t0 t1 inst s2 hg] at h
      cases ho : runtime query tools with
      | success out =>
          rw [ho, Except.ok.injEq, Prod.mk.injEq] at h
          obtain ⟨hr, hs⟩ := h
          subst hr
          simp
      | fault msg =>
          rw [ho, Except.ok.injEq, Prod.mk.injEq] at h
          obtain ⟨hr, hs⟩ := h
          subst hr
          simp

/-- Witness for C4 on the failure path of a concrete execution. -/
theorem run_result_exactly_one_witness :
    (({ success := false, result := none, error := some "boom",
        execution_time := some ((1 : ℚ) - 0) } : RunResult Nat).success = true ↔
      ({ success := false, result := none, error := some "boom",
         execution_time := some ((1 : ℚ) - 0) } : RunResult Nat).result.isSome = true ∧
      ({ success := false, result := none, error := some "boom",
         execution_time := some ((1 : ℚ) - 0) } : RunResult Nat).error = none) ∧
    (({ success := false, result := none, error := some "boom",
        execution_time := some ((1 : ℚ) - 0) } : RunResult Nat).success = false ↔
      ({ success := false, result := none, error := some "boom",
         execution_time := some ((1 : ℚ) - 0) } : RunResult Nat).error.isSome = true ∧
      ({ success := false, result := none, error := some "boom",
         execution_time := some ((1 : ℚ) - 0) } : RunResult Nat).result = none) ∧
    ({ success := false, result := none, error := some "boom",
       execution_time := some ((1 : ℚ) - 0) } : RunResult Nat).execution_time.isSome
      = true :=
  run_result_exactly_one Nat [("a", 0)] initState "q" ["a"]
    (fun _ _ => RuntimeOutcome.fault "boom") 0 1
    { success := false, result := none, error := some "boom",
      execution_time := some ((1 : ℚ) - 0) }
    { tools := {"a"},
      portia_instance := some
        { tools := {"a"}, scopedTools := [("a", 0)], snapshotKeys := {"a"}, uid := 0 },
      nextUid := 1 }
    rfl

/-- Single-slot cache consistency: whenever a client handle is cached, its
bound set is a subset of the key set of the catalog snapshot fetched when it
was created (the "at most one binding" half of the claim is structural here:
the state holds one optional handle). -/
def CacheInvariant (s : ServiceState) : Prop :=
  ∀ inst, s.portia_instance = some inst → inst.tools ⊆ inst.snapshotKeys

/-- C6: the initial state satisfies the cache invariant and every resolution
call — cache hit, successful rebuild or failed validation, on any catalog and
any requested set — preserves it. -/
theorem cache_invariant_preserved (catalog : Catalog) (s : ServiceState)
    (S : Finset String) (h : CacheInvariant s) :
    CacheInvariant initState ∧ CacheInvariant (getPortiaInstance catalog s S).2 := by
  refine ⟨fun inst hi => by exact Option.noConfusion hi, ?_⟩
  by_cases hc : S = s.tools ∧ s.portia_instance.isSome = true
  · obtain ⟨inst, hi⟩ := Option.isSome_iff_exists.mp hc.2
    rw [hc.1, getPortiaInstance_hit catalog s inst hi]
    exact h
  · rw [getPortiaInstance_miss catalog s S hc]
    unfold buildPortia
    by_cases hsub : S ⊆ catalogKeys catalog
    · rw [if_pos hsub]
      intro inst hi
      rw [Option.some.injEq] at hi
      subst hi
      exact hsub
    · rw [if_neg hsub]
      exact h

/-- Witness for C6: preservation starting from the initial state. -/
theorem cache_invariant_preserved_witness :
    CacheInvariant initState ∧
    CacheInvariant (getPortiaInstance [("a", 0)] initState {"a"}).2 :=
  cache_invariant_preserved [("a", 0)] initState {"a"}
    (fun _ hi => Option.noConfusion hi)

/-- C7: reported elapsed time is asymmetric between branches — on the success
path it is `round(now - start, 2)`, on the failure path it is `now - start`
with no rounding applied. -/
theorem execution_time_rounding_asymmetry {α : Type} (catalog : Catalog)
    (s : ServiceState) (query : String) (tools : List String) (out : α)
    (msg : String) (t0 t1 : ℚ) (inst : PortiaHandle) (s1 : ServiceState)
    (h : getPortiaInstance catalog s tools.toFinset = (.ok inst, s1)) :
    run_query catalog s query tools (fun _ _ => .success out) t0 t1 =
      .ok ({ success := true, result := some out, error := none,
             execution_time := some (round2 (t1 - t0)) }, s1) ∧
    run_query catalog s query tools (fun _ _ => RuntimeOutcome.fault (α := α) msg) t0 t1 =
      .ok ({ success := false, result := none, error := some msg,
             execution_time := some (t1 - t0) }, s1) := by
  constructor
  · rw [run_query_resolution_ok catalog s query tools (fun _ _ => .success out)
      t0 t1 inst s1 h]
  · rw [run_query_resolution_ok catalog s query tools
      (fun _ _ => RuntimeOutcome.fault (α := α) msg) t0 t1 inst s1 h]

/-- Rounding to two decimal places genuinely changes an elapsed time such as
one third of a second, so the asymmetry between the branches is observable. -/
lemma round2_changes_one_third : round2 ((1 : ℚ)/3 - 0) ≠ (1 : ℚ)/3 - 0 := by
  norm_num [round2, round_eq]

/-- Witness for C7 at an elapsed time of one third of a second. -/
theorem execution_time_rounding_asymmetry_witness :
    run_query [("a", 0)] initState "q" ["a"]
        (fun _ _ => RuntimeOutcome.success (4 : Nat)) 0 (1/3) =
      .ok ({ success := true, result := some 4, error := none,
             execution_time := some (round2 ((1 : ℚ)/3 - 0)) },
        { tools := {"a"},
          portia_instance := some
            { tools := {"a"}, scopedTools := [("a", 0)], snapshotKeys := {"a"}, uid := 0 },
          nextUid := 1 }) ∧
    run_query [("a", 0)] initState "q" ["a"]
        (fun _ _ => RuntimeOutcome.fault (α := Nat) "boom") 0 (1/3) =
      .ok ({ success := false, result := none, error := some "boom",
             execution_time := some ((1 : ℚ)/3 - 0) },
        { tools := {"a"},
          portia_instance := some
            { tools := {"a"}, scopedTools := [("a", 0)], snapshotKeys := {"a"}, uid := 0 },
          nextUid := 1 }) :=
  ⟨(execution_time_rounding_asymmetry [("a", 0)] initState "q" ["a"] (4 : Nat)
      "boom" 0 (1/3)
      { tools := {"a"}, scopedTools := [("a", 0)], snapshotKeys := {"a"}, uid := 0 }
      { tools := {"a"},
        portia_instance := some
          { tools := {"a"}, scopedTools := [("a", 0)], snapshotKeys := {"a"}, uid := 0 },
        nextUid := 1 }
      (by decide)).1,
   (execution_time_rounding_asymmetry [("a", 0)] initState "q" ["a"] (4 : Nat)
      "boom" 0 (1/3)
      { tools := {"a"}, scopedTools := [("a", 0)], snapshotKeys := {"a"}, uid := 0 }
      { tools := {"a"},
        portia_instance := some
          { tools := {"a"}, scopedTools := [("a", 0)], snapshotKeys := {"a"}, uid := 0 },
        nextUid := 1 }
      (by decide)).2⟩

/-- C8: a resolution that fails with `InvalidToolsError` leaves the cache
slot exactly as it was — and consequently a later resolve for the previously
bound set still returns the previously cached handle, on any catalog. -/
theorem resolve_error_leaves_state_unchanged (catalog : Catalog) (s : ServiceState)
    (S : Finset String) (e : InvalidToolsError)
    (h : (getPortiaInstance catalog s S).1 = .error e) :
    (getPortiaInstance catalog s S).2 = s ∧
    ∀ inst, s.portia_instance = some inst →
      ∀ c2, getPortiaInstance c2 s s.tools = (.ok inst, s) := by
  refine ⟨?_, fun inst hi c2 => getPortiaInstance_hit c2 s inst hi⟩
  have hmiss : ¬ (S = s.tools ∧ s.portia_instance.isSome = true) := by
    intro hc
    obtain ⟨inst, hi⟩ := Option.isSome_iff_exists.mp hc.2
    rw [hc.1, getPortiaInstance_hit catalog s inst hi] at h
    simp at h
  rw [getPortiaInstance_miss catalog s S hmiss] at h ⊢
  unfold buildPortia at h ⊢
  by_cases hsub : S ⊆ catalogKeys catalog
  · rw [if_pos hsub] at h
    simp at h
  · rw [if_neg hsub]

/-- Witness for C8: a failing request for {b} against the empty catalog
leaves a binding for {a} untouched and still resolvable. -/
theorem resolve_error_leaves_state_unchanged_witness :
    (getPortiaInstance []
        { tools := {"a"},
          portia_instance := some
            { tools := {"a"}, scopedTools := [("a", 0)], snapshotKeys := {"a"}, uid := 0 },
          nextUid := 1 }
        {"b"}).2 =
      { tools := {"a"},
        portia_instance := some
          { tools := {"a"}, scopedTools := [("a", 0)], snapshotKeys := {"a"}, uid := 0 },
        nextUid := 1 } ∧
    getPortiaInstance [("a", 1)]
        { tools := {"a"},
          portia_instance := some
            { tools := {"a"}, scopedTools := [("a", 0)], snapshotKeys := {"a"}, uid := 0 },
          nextUid := 1 }
        {"a"} =
      (.ok { tools := {"a"}, scopedTools := [("a", 0)], snapshotKeys := {"a"}, uid := 0 },
       { tools := {"a"},
         portia_instance := some
           { tools := {"a"}, scopedTools := [("a", 0)], snapshotKeys := {"a"}, uid := 0 },
         nextUid := 1 }) :=
  ⟨(resolve_error_leaves_state_unchanged []
      { tools := {"a"},
        portia_instance := some
          { tools := {"a"}, scopedTools := [("a", 0)], snapshotKeys := {"a"}, uid := 0 },
        nextUid := 1 }
      {"b"} { invalid_tools := {"b"}, available_tools := ∅ } (by decide)).1,
   (resolve_error_leaves_state_unchanged []
      { tools := {"a"},
        portia_instance := some
          { tools := {"a"}, scopedTools := [("a", 0)], snapshotKeys := {"a"}, uid := 0 },
        nextUid := 1 }
      {"b"} { invalid_tools := {"b"}, available_tools := ∅ } (by decide)).2
     { tools := {"a"}, scopedTools := [("a", 0)], snapshotKeys := {"a"}, uid := 0 }
     (by decide) [("a", 1)]⟩

/-- C10: client resolution depends only on the set of identifiers in the
request's tool list — the source converts the list to a set first — so two
lists with the same identifiers, whatever their order or duplication, resolve
identically, and `run_query` rejects one exactly when it rejects the other,
with the same error. -/
theorem resolution_depends_only_on_tool_set {α : Type} (catalog : Catalog)
    (s : ServiceState) (l1 l2 : List String) (h : l1.toFinset = l2.toFinset) :
    getPortiaInstance catalog s l1.toFinset = getPortiaInstance catalog s l2.toFinset ∧
    ∀ (query : String) (runtime : String → List String → RuntimeOutcome α)
      (t0 t1 : ℚ) (e : InvalidToolsError),
      (run_query catalog s query l1 runtime t0 t1 = .error e ↔
       run_query catalog s query l2 runtime t0 t1 = .error e) := by
  refine ⟨by rw [h], fun query runtime t0 t1 e => ?_⟩
  rw [run_query_error_iff catalog s query l1 runtime t0 t1 e,
    run_query_error_iff catalog s query l2 runtime t0 t1 e, h]

/-- Witness for C10: the lists [b, a, b] and [a, b] are rejected identically
against a catalog whose key set is {a}. -/
theorem resolution_depends_only_on_tool_set_witness :
    getPortiaInstance [("a", 0)] initState (["b", "a", "b"].toFinset) =
      getPortiaInstance [("a", 0)] initState (["a", "b"].toFinset) ∧
    (run_query [("a", 0)] initState "q" ["b", "a", "b"]
        (fun _ _ => RuntimeOutcome.fault (α := Nat) "boom") 0 1 =
        .error { invalid_tools := {"a", "b"}, available_tools := {"a"} } ↔
     run_query [("a", 0)] initState "q" ["a", "b"]
        (fun _ _ => RuntimeOutcome.fault (α := Nat) "boom") 0 1 =
        .error { invalid_tools := {"a", "b"}, available_tools := {"a"} }) :=
  ⟨(resolution_depends_only_on_tool_set (α := Nat) [("a", 0)] initState
      ["b", "a", "b"] ["a", "b"] (by decide)).1,
   (resolution_depends_only_on_tool_set [("a", 0)] initState
      ["b", "a", "b"] ["a", "b"] (by decide)).2 "q"
     (fun _ _ => RuntimeOutcome.fault "boom") 0 1
     { invalid_tools := {"a", "b"}, available_tools := {"a"} }⟩

end PortiaFastapi
